import Mathlib

/-!
Verification development for the near-me amenity search server
(`server.py`): a shallow embedding of the distance calculator
`haversine_km` and of the amenity search engine `overpass_query`
(query construction, transport outcome handling, response
normalization, ranking and truncation), together with theorems
settling the specified properties.

Modelling conventions:
* JSON numbers (coordinates) are modelled as rationals `ℚ`; the
  floating-point distance value attached to each result is modelled by
  an arbitrary parameter `dist` standing for the float computation
  `haversine_km`, so the pipeline theorems hold for every distance
  function.  The distance calculator itself is modelled separately
  over the reals.
* A JSON object of string tags is modelled as an association list with
  first-match lookup (`tagGet`).
* Python truthiness on `str`-or-`None` values (`x or y`) is modelled
  by `pyTruthy` / `pyOr` / `pyOrStr` / `pyOrS`: `None` and the empty
  string are falsy.
* `sorted(..., key=...)` (Timsort, a stable ascending sort by key) is
  modelled by `List.mergeSort`, which is stable and sorts ascending
  with respect to the comparator.
-/

/-- A tag dictionary (JSON object of strings), as an association list. -/
abbrev Tags := List (String × String)

/-- `tags.get(k)`: dictionary lookup returning `None` for a missing key. -/
def tagGet (tags : Tags) (k : String) : Option String :=
  List.lookup k tags

/-- Python truthiness of a `str`-or-`None` value: `None` and `""` are falsy. -/
def pyTruthy : Option String → Bool
  | none => false
  | some s => !(s == "")

/-- Python `a or b` on `str`-or-`None` values. -/
def pyOr (a b : Option String) : Option String :=
  if pyTruthy a then a else b

/-- Python `a or b` where `b` is a string literal, so the result is a string. -/
def pyOrStr (a : Option String) (b : String) : String :=
  if pyTruthy a then a.getD "" else b

/-- Python `a or b` on plain strings (`""` is the only falsy string). -/
def pyOrS (a b : String) : String :=
  if a = "" then b else a

/-- The nested `center` object carried by `way` / `relation` elements. -/
structure Center where
  lat : Option ℚ
  lon : Option ℚ
deriving DecidableEq

/-- A raw element of the backend response's `elements` list: a `type`
(`"node"` / `"way"` / `"relation"`), optional direct coordinates,
an optional nested `center`, and a tag dictionary. -/
structure RawElement where
  type : String
  lat : Option ℚ
  lon : Option ℚ
  center : Option Center
  tags : Tags
deriving DecidableEq

/-- The engine's normalized output record. -/
structure AmenityResult where
  name : String
  address : String
  contact : String
  lat : ℚ
  lon : ℚ
  distance_km : ℚ
deriving DecidableEq

/-- The six address-component keys, in the fixed order used by the code. -/
def addrKeys : List String :=
  ["addr:street", "addr:housenumber", "addr:city",
   "addr:postcode", "addr:state", "addr:country"]

/-- Effective latitude of an element: its own `lat` for a `node`, the
nested `center` latitude otherwise (`el.get("center", {}).get("lat")`). -/
def effLat (el : RawElement) : Option ℚ :=
  if el.type = "node" then el.lat else (el.center.getD ⟨none, none⟩).lat

/-- Effective longitude, symmetric to `effLat`. -/
def effLon (el : RawElement) : Option ℚ :=
  if el.type = "node" then el.lon else (el.center.getD ⟨none, none⟩).lon

/-- Normalization of one raw element (the body of the `for el in ...`
loop): derive `name`, `contact`, `address`, resolve the effective
coordinate, and either produce a result (with its distance) or drop
the element (`continue`) when either coordinate component is missing. -/
def processElement (dist : ℚ → ℚ → ℚ → ℚ → ℚ) (lat lon : ℚ)
    (el : RawElement) : Option AmenityResult :=
  let tags := el.tags
  let name := pyOrStr (pyOr (tagGet tags "name") (tagGet tags "operator")) "Unknown"
  let phone := pyOr (pyOr (tagGet tags "phone") (tagGet tags "contact:phone"))
    (tagGet tags "telephone")
  let addr_parts := addrKeys.filterMap fun k =>
    if pyTruthy (tagGet tags k) then tagGet tags k else none
  let address := pyOrS (String.intercalate ", " addr_parts)
    ((tagGet tags "addr:full").getD "Not available")
  match effLat el, effLon el with
  | some lat_e, some lon_e =>
      some { name := name, address := address,
             contact := pyOrStr phone "Not available",
             lat := lat_e, lon := lon_e,
             distance_km := dist lat lon lat_e lon_e }
  | _, _ => none

/-- The `results` list accumulated over the response's elements, in
response order (elements with unresolved coordinates are dropped). -/
def elementResults (dist : ℚ → ℚ → ℚ → ℚ → ℚ) (lat lon : ℚ)
    (els : List RawElement) : List AmenityResult :=
  els.filterMap (processElement dist lat lon)

/-- The sort comparator: ascending by `distance_km` (the `key=` of `sorted`). -/
def resultLE (a b : AmenityResult) : Bool :=
  decide (a.distance_km ≤ b.distance_km)

/-- `sorted(results, key=lambda r: r["distance_km"])`: a stable
ascending sort by distance. -/
def sortedResults (dist : ℚ → ℚ → ℚ → ℚ → ℚ) (lat lon : ℚ)
    (els : List RawElement) : List AmenityResult :=
  (elementResults dist lat lon els).mergeSort resultLE

/-- The success-path value of `overpass_query`:
`sorted(results, key=...)[:MAX_RESULTS]`. -/
def processResponse (dist : ℚ → ℚ → ℚ → ℚ → ℚ) (maxResults : Nat)
    (lat lon : ℚ) (els : List RawElement) : List AmenityResult :=
  (sortedResults dist lat lon els).take maxResults

/-- A response body: either not parseable as the expected structure
(`res.json()` or the subsequent field accesses raise), or a JSON
object whose `elements` field is present (`some`) or absent (`none`). -/
inductive Body where
  | malformed : Body
  | object (elements : Option (List RawElement)) : Body
deriving DecidableEq

/-- Outcome of `requests.post`: a transport-level failure (unreachable,
DNS, timeout — an exception from `requests.post` itself), or an HTTP
response with a status code and a body. -/
inductive TransportOutcome where
  | failure : TransportOutcome
  | response (status : Nat) (body : Body) : TransportOutcome
deriving DecidableEq

/-- The fatal failure conditions `overpass_query` propagates. -/
inductive BackendError where
  | transport : BackendError
  | httpStatus (status : Nat) : BackendError
  | malformedBody : BackendError
deriving DecidableEq

/-- The engine `overpass_query`, from the transport outcome on: a
transport failure propagates; `res.raise_for_status()` raises exactly
for client/server error statuses (`400 ≤ status < 600`); a body not
parseable as the expected structure raises; otherwise
`res.json().get("elements", [])` is processed (an absent `elements`
field yields the empty list) and the sorted, truncated results are
returned. -/
def overpass_query (dist : ℚ → ℚ → ℚ → ℚ → ℚ) (maxResults : Nat)
    (lat lon : ℚ) (out : TransportOutcome) :
    Except BackendError (List AmenityResult) :=
  match out with
  | .failure => .error .transport
  | .response status body =>
      if 400 ≤ status ∧ status < 600 then .error (.httpStatus status)
      else
        match body with
        | .malformed => .error .malformedBody
        | .object elements => .ok (processResponse dist maxResults lat lon (elements.getD []))

/-- Python `int(q)`: truncation toward zero. -/
def pyInt (q : ℚ) : Int :=
  if 0 ≤ q then ⌊q⌋ else ⌈q⌉

/-- The Overpass QL payload built by `overpass_query` (the f-string),
with the interpolated renderings of `lat` and `lon` abstracted as
strings. -/
def overpassQL (lat lon : String) (radius_km : ℚ) (amenity : String) : String :=
  let radius_m := pyInt (radius_km * 1000)
  "\n[out:json][timeout:25];\n(\n  node[\"amenity\"=\"" ++ amenity ++
    "\"](around:" ++ toString radius_m ++ "," ++ lat ++ "," ++ lon ++
    ");\n  way[\"amenity\"=\"" ++ amenity ++
    "\"](around:" ++ toString radius_m ++ "," ++ lat ++ "," ++ lon ++
    ");\n  relation[\"amenity\"=\"" ++ amenity ++
    "\"](around:" ++ toString radius_m ++ "," ++ lat ++ "," ++ lon ++
    ");\n);\nout center;\n"

/-- One geometry selector of the structured query: a geometry kind
constrained by amenity-tag equality and by a radial filter
`(around:radius_m,lat,lon)` centered at the origin. -/
def selectorQL (kind amenity : String) (radius_m : Int) (lat lon : String) : String :=
  "  " ++ kind ++ "[\"amenity\"=\"" ++ amenity ++ "\"](around:" ++
    toString radius_m ++ "," ++ lat ++ "," ++ lon ++ ");\n"

/-- Concatenation of a list of selectors. -/
def renderSelectors (amenity : String) (radius_m : Int) (lat lon : String) :
    List String → String
  | [] => ""
  | k :: ks => selectorQL k amenity radius_m lat lon ++
      renderSelectors amenity radius_m lat lon ks

/-- A structured rendering of an Overpass query: a header carrying the
server-side evaluation timeout, a union of geometry selectors, and the
centroid-output directive `out center`. -/
def renderQuery (timeout : Nat) (kinds : List String) (amenity : String)
    (radius_m : Int) (lat lon : String) : String :=
  "\n[out:json][timeout:" ++ toString timeout ++ "];\n(\n" ++
    renderSelectors amenity radius_m lat lon kinds ++ ");\nout center;\n"

/-- `math.radians`: degrees to radians (real-number model of the float
computation). -/
noncomputable def radians (x : ℝ) : ℝ := x * (Real.pi / 180)

/-- `math.atan2 y x`: the two-argument arctangent, total on all of
`ℝ × ℝ` (C convention, with `atan2 0 0 = 0`). -/
noncomputable def atan2 (y x : ℝ) : ℝ :=
  if 0 < x then Real.arctan (y / x)
  else if x < 0 then
    (if 0 ≤ y then Real.arctan (y / x) + Real.pi
     else Real.arctan (y / x) - Real.pi)
  else if 0 < y then Real.pi / 2
  else if y < 0 then -(Real.pi / 2)
  else 0

/-- The intermediate `a` of `haversine_km`:
`sin(dphi/2)**2 + cos(phi1)*cos(phi2)*sin(dlambda/2)**2`. -/
noncomputable def hav_a (lat1 lon1 lat2 lon2 : ℝ) : ℝ :=
  Real.sin (radians (lat2 - lat1) / 2) ^ 2 +
    Real.cos (radians lat1) * Real.cos (radians lat2) *
      Real.sin (radians (lon2 - lon1) / 2) ^ 2

/-- `haversine_km`, the distance calculator (real-number model):
`R * 2 * atan2(sqrt(a), sqrt(1 - a))` with `R = 6371.0`. -/
noncomputable def haversine_km (lat1 lon1 lat2 lon2 : ℝ) : ℝ :=
  6371.0 * 2 * atan2 (Real.sqrt (hav_a lat1 lon1 lat2 lon2))
    (Real.sqrt (1 - hav_a lat1 lon1 lat2 lon2))

/-- C2: for every backend response, regardless of how many raw elements
it contains, the engine returns at most `maxResults` entries (the
`MAX_RESULTS` configuration, default 6), namely a prefix (the first
entries) of the sorted sequence. -/
theorem results_truncated_to_max (dist : ℚ → ℚ → ℚ → ℚ → ℚ) (maxResults : Nat)
    (lat lon : ℚ) (els : List RawElement) :
    (processResponse dist maxResults lat lon els).length ≤ maxResults ∧
      processResponse dist maxResults lat lon els <+: sortedResults dist lat lon els := by
  constructor
  · simp only [processResponse, List.length_take]
    exact min_le_left _ _
  · exact List.take_prefix _ _

/-- C9: the constructed backend query equals the structured rendering
with server-side timeout 25, exactly the three geometry selectors
`node`, `way`, `relation` (each constrained by amenity-tag equality
and the radial filter around the origin), radius in meters equal to
the integer truncation of `radius_km * 1000`, and the centroid-output
directive. -/
theorem overpassQL_renders (lat lon : String) (radius_km : ℚ) (amenity : String) :
    overpassQL lat lon radius_km amenity =
      renderQuery 25 ["node", "way", "relation"] amenity
        (pyInt (radius_km * 1000)) lat lon := by
  simp only [overpassQL, renderQuery, renderSelectors, selectorQL, String.append_assoc]
  rfl

/-- C10: a successful, parseable JSON body lacking the `elements` field
is not treated as malformed; the engine processes an empty element
list and returns the empty ordered sequence. -/
theorem missing_elements_empty (dist : ℚ → ℚ → ℚ → ℚ → ℚ) (maxResults : Nat)
    (lat lon : ℚ) (status : Nat) (h₁ : 200 ≤ status) (h₂ : status < 300) :
    overpass_query dist maxResults lat lon (.response status (.object none)) =
      .ok [] := by
  simp only [overpass_query]
  rw [if_neg (by omega)]
  simp [processResponse, sortedResults, elementResults]

/-- Witness for `missing_elements_empty` at status 200. -/
theorem missing_elements_empty_witness :
    overpass_query (fun _ _ _ _ => 0) 6 0 0 (.response 200 (.object none)) =
      .ok [] :=
  missing_elements_empty (fun _ _ _ _ => 0) 6 0 0 200 (by norm_num) (by norm_num)

/-- C6 counterexample: the claim says every non-2xx status propagates a
fatal failure, but `raise_for_status` raises only for statuses in
`[400, 600)`; a response with the non-2xx status 999 and a parseable
body is processed normally (here: to a valid empty result list). -/
theorem c6_non2xx_cex :
    overpass_query (fun _ _ _ _ => 0) 6 0 0 (.response 999 (.object (some []))) =
        .ok [] ∧
      ¬(200 ≤ 999 ∧ 999 < 300) := by
  constructor
  · simp only [overpass_query]
    rw [if_neg (by omega)]
    simp [processResponse, sortedResults, elementResults]
  · omega

/-- C6 (amended): a transport-level failure, a client/server error
status (`400 ≤ status < 600`, the statuses `raise_for_status` raises
for), or a body not parseable as the expected structure each propagate
as a single fatal failure with no partial result; an empty matching
set on a non-error status is the valid empty ordered sequence, not an
error. -/
theorem backend_failures_fatal (dist : ℚ → ℚ → ℚ → ℚ → ℚ) (maxResults : Nat)
    (lat lon : ℚ) (status : Nat) (body : Body) :
    overpass_query dist maxResults lat lon .failure = .error .transport ∧
      (400 ≤ status → status < 600 →
        overpass_query dist maxResults lat lon (.response status body) =
          .error (.httpStatus status)) ∧
      (¬(400 ≤ status ∧ status < 600) →
        overpass_query dist maxResults lat lon (.response status .malformed) =
          .error .malformedBody) ∧
      (¬(400 ≤ status ∧ status < 600) →
        overpass_query dist maxResults lat lon (.response status (.object (some []))) =
          .ok []) := by
  refine ⟨rfl, ?_, ?_, ?_⟩
  · intro h₁ h₂
    simp only [overpass_query]
    rw [if_pos ⟨h₁, h₂⟩]
  · intro h
    simp only [overpass_query]
    rw [if_neg h]
  · intro h
    simp only [overpass_query]
    rw [if_neg h]
    simp [processResponse, sortedResults, elementResults]

/-- Witness for `backend_failures_fatal`: a 404 status with a malformed
body propagates the HTTP error. -/
theorem backend_failures_fatal_witness :
    overpass_query (fun _ _ _ _ => 0) 6 0 0 (.response 404 .malformed) =
      .error (.httpStatus 404) :=
  (backend_failures_fatal (fun _ _ _ _ => 0) 6 0 0 404 .malformed).2.1
    (by norm_num) (by norm_num)

/-- A produced result carries exactly the element's resolved effective
coordinate. -/
theorem processElement_coord {dist : ℚ → ℚ → ℚ → ℚ → ℚ} {lat lon : ℚ}
    {el : RawElement} {r : AmenityResult}
    (h : processElement dist lat lon el = some r) :
    effLat el = some r.lat ∧ effLon el = some r.lon := by
  unfold processElement at h
  cases hla : effLat el <;> cases hlo : effLon el <;>
    simp only [hla, hlo] at h
  · cases h
  · cases h
  · cases h
  · rw [Option.some_inj] at h
    subst h
    exact ⟨rfl, rfl⟩

/-- An element whose effective coordinate misses a component produces
no result. -/
theorem processElement_none {dist : ℚ → ℚ → ℚ → ℚ → ℚ} {lat lon : ℚ}
    {el : RawElement} (h : effLat el = none ∨ effLon el = none) :
    processElement dist lat lon el = none := by
  unfold processElement
  cases hla : effLat el <;> cases hlo : effLon el <;> simp_all

/-- C3: every emitted result has a fully resolved effective coordinate
(both components present, taken from some response element), and an
element whose effective coordinate misses a component is silently
dropped: removing it from the response leaves the output unchanged
(the pipeline is total, so no error is raised). -/
theorem coords_resolved_and_dropped (dist : ℚ → ℚ → ℚ → ℚ → ℚ)
    (maxResults : Nat) (lat lon : ℚ) (els : List RawElement) :
    (∀ r ∈ processResponse dist maxResults lat lon els,
        ∃ el ∈ els, effLat el = some r.lat ∧ effLon el = some r.lon) ∧
      (∀ l₁ l₂ : List RawElement, ∀ el : RawElement,
        (effLat el = none ∨ effLon el = none) →
          processResponse dist maxResults lat lon (l₁ ++ el :: l₂) =
            processResponse dist maxResults lat lon (l₁ ++ l₂)) := by
  constructor
  · intro r hr
    have hr₁ : r ∈ sortedResults dist lat lon els :=
      List.mem_of_mem_take hr
    have hr₂ : r ∈ elementResults dist lat lon els := by
      simpa [sortedResults] using hr₁
    obtain ⟨el, hel, hsome⟩ := List.mem_filterMap.mp hr₂
    exact ⟨el, hel, processElement_coord hsome⟩
  · intro l₁ l₂ el h
    unfold processResponse sortedResults elementResults
    rw [List.filterMap_append, List.filterMap_append,
      List.filterMap_cons_none (processElement_none h)]

/-- Witness for `coords_resolved_and_dropped`: a `way` element with no
`center` is dropped without error. -/
theorem coords_resolved_and_dropped_witness :
    processResponse (fun _ _ _ _ => 0) 6 0 0
        [{ type := "way", lat := none, lon := none, center := none, tags := [] }] =
      processResponse (fun _ _ _ _ => 0) 6 0 0 [] :=
  (coords_resolved_and_dropped (fun _ _ _ _ => 0) 6 0 0 []).2 [] []
    { type := "way", lat := none, lon := none, center := none, tags := [] }
    (Or.inl (by decide))

/-- The sort comparator is transitive. -/
theorem resultLE_trans (a b c : AmenityResult) :
    resultLE a b → resultLE b c → resultLE a c := by
  simp only [resultLE, decide_eq_true_eq]
  exact le_trans

/-- The sort comparator is total. -/
theorem resultLE_total (a b : AmenityResult) :
    resultLE a b || resultLE b a := by
  simp only [resultLE, Bool.or_eq_true, decide_eq_true_eq]
  exact le_total _ _

/-- C1: the returned sequence is sorted in ascending order of
`distance_km` (the distance values are non-decreasing by index), and
the sort is stable: for every distance value, the results at that
distance appear in the original response order (a prefix of the
corresponding sublist of the unsorted result list, since the output is
truncated). -/
theorem results_sorted_by_distance (dist : ℚ → ℚ → ℚ → ℚ → ℚ) (maxResults : Nat)
    (lat lon : ℚ) (els : List RawElement) :
    List.Sorted (· ≤ ·)
        ((processResponse dist maxResults lat lon els).map AmenityResult.distance_km) ∧
      ∀ d : ℚ,
        (processResponse dist maxResults lat lon els).filter
            (fun r => decide (r.distance_km = d)) <+:
          (elementResults dist lat lon els).filter
            (fun r => decide (r.distance_km = d)) := by
  constructor
  · have hs : (sortedResults dist lat lon els).Pairwise (fun a b => resultLE a b) :=
      List.sorted_mergeSort resultLE_trans resultLE_total (elementResults dist lat lon els)
    have hs₂ : (processResponse dist maxResults lat lon els).Pairwise
        (fun a b => resultLE a b) :=
      List.Pairwise.sublist (List.take_sublist _ _) hs
    refine List.pairwise_map.mpr (hs₂.imp ?_)
    intro a b h
    simpa [resultLE] using h
  · intro d
    have hperm := List.mergeSort_perm (elementResults dist lat lon els) resultLE
    have hpair : ((elementResults dist lat lon els).filter
        (fun r => decide (r.distance_km = d))).Pairwise (fun a b => resultLE a b) := by
      apply List.pairwise_of_forall_mem_list
      intro a ha b hb
      have ha₂ := (List.mem_filter.mp ha).2
      have hb₂ := (List.mem_filter.mp hb).2
      simp only [decide_eq_true_eq] at ha₂ hb₂
      simp [resultLE, ha₂, hb₂]
    have hsub : List.Sublist
        ((elementResults dist lat lon els).filter
          (fun r => decide (r.distance_km = d)))
        (sortedResults dist lat lon els) :=
      List.sublist_mergeSort resultLE_trans resultLE_total hpair (List.filter_sublist _)
    have hsub₂ : List.Sublist
        ((elementResults dist lat lon els).filter
          (fun r => decide (r.distance_km = d)))
        ((sortedResults dist lat lon els).filter
          (fun r => decide (r.distance_km = d))) := by
      have h₁ := hsub.filter (fun r => decide (r.distance_km = d))
      have h₂ : ((elementResults dist lat lon els).filter
          (fun r => decide (r.distance_km = d))).filter
            (fun r => decide (r.distance_km = d)) =
          (elementResults dist lat lon els).filter
            (fun r => decide (r.distance_km = d)) :=
        List.filter_eq_self.mpr fun a ha => (List.mem_filter.mp ha).2
      rwa [h₂] at h₁
    have heq : (sortedResults dist lat lon els).filter
        (fun r => decide (r.distance_km = d)) =
          (elementResults dist lat lon els).filter
            (fun r => decide (r.distance_km = d)) :=
      (hsub₂.eq_of_length
        ((hperm.filter (fun r => decide (r.distance_km = d))).length_eq).symm).symm
    have htp := List.take_prefix maxResults (sortedResults dist lat lon els)
    have hpre := htp.filter (fun r => decide (r.distance_km = d))
    rw [heq] at hpre
    exact hpre

/-- A non-empty string has positive length. -/
theorem str_len_pos {p : String} (h : p ≠ "") : 0 < p.length := by
  by_contra hl
  push_neg at hl
  apply h
  apply String.ext
  have h₀ : p.data.length = 0 := Nat.le_zero.mp hl
  simpa using List.length_eq_zero.mp h₀

/-- The accumulator's length never shrinks in `String.intercalate.go`. -/
theorem intercalate_go_len (s : String) :
    ∀ (l : List String) (acc : String),
      acc.length ≤ (String.intercalate.go acc s l).length := by
  intro l
  induction l with
  | nil => intro acc; exact Nat.le_refl _
  | cons a as ih =>
      intro acc
      calc acc.length ≤ (acc ++ s ++ a).length := by
            simp [String.length_append]
            omega
        _ ≤ (String.intercalate.go (acc ++ s ++ a) s as).length := ih _
        _ = (String.intercalate.go acc s (a :: as)).length := rfl

/-- Joining a list whose head is non-empty yields a non-empty string. -/
theorem intercalate_ne_empty (s p : String) (ps : List String)
    (hp : p ≠ "") : String.intercalate s (p :: ps) ≠ "" := by
  intro h
  have h₁ : 0 < p.length := str_len_pos hp
  have h₂ : p.length ≤ (String.intercalate s (p :: ps)).length :=
    intercalate_go_len s ps p
  rw [h] at h₂
  simp at h₂
  omega

/-- Modelled from the claim's words, for the counterexample: the value
of the first of `keys` whose key is present in `tags`, else `dflt`
(key presence only — Python truthiness ignored). -/
def specFirst (tags : Tags) : List String → String → String
  | [], dflt => dflt
  | k :: ks, dflt =>
      match tagGet tags k with
      | some v => v
      | none => specFirst tags ks dflt

/-- The value of the first of `keys` present in `tags` with a
non-empty value, else `dflt` (the truthiness-aware reading). -/
def specFirstNE (tags : Tags) : List String → String → String
  | [], dflt => dflt
  | k :: ks, dflt =>
      match tagGet tags k with
      | some v => if v = "" then specFirstNE tags ks dflt else v
      | none => specFirstNE tags ks dflt

/-- The present-and-non-empty address components among `ks`, in order. -/
def specAddrParts (tags : Tags) : List String → List String
  | [] => []
  | k :: ks =>
      match tagGet tags k with
      | some v => if v = "" then specAddrParts tags ks
                  else v :: specAddrParts tags ks
      | none => specAddrParts tags ks

/-- The address derivation, truthiness-aware: comma-join the non-empty
components in the fixed order; with no such component, fall back to
the `addr:full` value when that key is present, else "Not available". -/
def specAddress (tags : Tags) : String :=
  if specAddrParts tags addrKeys = [] then
    match tagGet tags "addr:full" with
    | some v => v
    | none => "Not available"
  else String.intercalate ", " (specAddrParts tags addrKeys)

/-- The two-key `or` chain agrees with the truthiness-aware first-hit. -/
theorem pyOrStr_two (tags : Tags) (k₁ k₂ dflt : String) :
    pyOrStr (pyOr (tagGet tags k₁) (tagGet tags k₂)) dflt =
      specFirstNE tags [k₁, k₂] dflt := by
  cases h₁ : tagGet tags k₁ <;> cases h₂ : tagGet tags k₂ <;>
    simp [pyOrStr, pyOr, pyTruthy, specFirstNE, h₁, h₂] <;>
    split_ifs <;> simp_all

/-- The three-key `or` chain agrees with the truthiness-aware first-hit. -/
theorem pyOrStr_three (tags : Tags) (k₁ k₂ k₃ dflt : String) :
    pyOrStr (pyOr (pyOr (tagGet tags k₁) (tagGet tags k₂)) (tagGet tags k₃)) dflt =
      specFirstNE tags [k₁, k₂, k₃] dflt := by
  cases h₁ : tagGet tags k₁ <;> cases h₂ : tagGet tags k₂ <;>
    cases h₃ : tagGet tags k₃ <;>
    simp [pyOrStr, pyOr, pyTruthy, specFirstNE, h₁, h₂, h₃] <;>
    split_ifs <;> simp_all

/-- The list-comprehension filter agrees with `specAddrParts`. -/
theorem addr_parts_eq (tags : Tags) (ks : List String) :
    (ks.filterMap fun k => if pyTruthy (tagGet tags k) then tagGet tags k else none) =
      specAddrParts tags ks := by
  induction ks with
  | nil => rfl
  | cons k ks ih =>
      rw [List.filterMap_cons]
      unfold specAddrParts
      cases h : tagGet tags k with
      | none => exact ih
      | some v =>
          by_cases hv : v = ""
          · subst hv
            exact ih
          · have ht : pyTruthy (some v) = true := by
              simp [pyTruthy, hv]
            rw [ht]
            simp [hv, ih]

/-- Every collected address component is non-empty. -/
theorem specAddrParts_ne_empty (tags : Tags) (ks : List String) :
    ∀ p ∈ specAddrParts tags ks, p ≠ "" := by
  induction ks with
  | nil => intro p hp; cases hp
  | cons k ks ih =>
      intro p hp
      unfold specAddrParts at hp
      cases h : tagGet tags k with
      | none => rw [h] at hp; exact ih p hp
      | some v =>
          rw [h] at hp
          by_cases hv : v = ""
          · simp only [hv, if_pos rfl] at hp
            exact ih p hp
          · simp only [if_neg hv] at hp
            rcases List.mem_cons.mp hp with hpv | hp₂
            · rw [hpv]; exact hv
            · exact ih p hp₂

/-- The code's address computation agrees with `specAddress`. -/
theorem address_eq (tags : Tags) :
    pyOrS (String.intercalate ", "
        (addrKeys.filterMap fun k =>
          if pyTruthy (tagGet tags k) then tagGet tags k else none))
      ((tagGet tags "addr:full").getD "Not available") = specAddress tags := by
  rw [addr_parts_eq]
  unfold pyOrS specAddress
  cases hp : specAddrParts tags addrKeys with
  | nil =>
      simp only [String.intercalate, if_pos rfl]
      cases tagGet tags "addr:full" <;> simp
  | cons p ps =>
      have hpmem : p ∈ specAddrParts tags addrKeys := by
        rw [hp]; exact List.mem_cons_self p ps
      have hne : String.intercalate ", " (p :: ps) ≠ "" :=
        intercalate_ne_empty _ _ _ (specAddrParts_ne_empty tags addrKeys p hpmem)
      rw [if_neg hne, if_neg (by simp)]

/-- The element refuting C5 as stated: its `name` tag is present but
empty, so Python truthiness skips it in favour of `operator`. -/
def cexElement : RawElement :=
  { type := "node", lat := some 1, lon := some 2, center := none,
    tags := [("name", ""), ("operator", "Clinic")] }

/-- C5 counterexample: on an element whose `name` tag is present with
the empty value, the claim's "first present of {name, operator}" is
`""`, but the code (Python `or` truthiness) skips the empty value and
produces `"Clinic"`. -/
theorem c5_truthiness_cex :
    (processElement (fun _ _ _ _ => 0) 0 0 cexElement).map AmenityResult.name =
        some "Clinic" ∧
      specFirst cexElement.tags ["name", "operator"] "Unknown" = "" ∧
      ("Clinic" : String) ≠ "" := by
  refine ⟨by decide, by decide, by decide⟩

/-- C5 (amended): for every raw element producing a result, `name` is
the first present *non-empty* value of {name, operator} else
"Unknown", `contact` the first present non-empty value of
{phone, contact:phone, telephone} else "Not available", and `address`
the comma-joined present non-empty address components in the fixed
order, falling back to the `addr:full` value (when that key is
present, else "Not available") only when no non-empty component is
present. -/
theorem fallback_fields (dist : ℚ → ℚ → ℚ → ℚ → ℚ) (lat lon : ℚ)
    (el : RawElement) (r : AmenityResult)
    (h : processElement dist lat lon el = some r) :
    r.name = specFirstNE el.tags ["name", "operator"] "Unknown" ∧
      r.contact = specFirstNE el.tags ["phone", "contact:phone", "telephone"]
        "Not available" ∧
      r.address = specAddress el.tags := by
  unfold processElement at h
  cases hla : effLat el <;> cases hlo : effLon el <;> simp only [hla, hlo] at h
  · cases h
  · cases h
  · cases h
  · rw [Option.some_inj] at h
    subst h
    exact ⟨pyOrStr_two el.tags "name" "operator" "Unknown",
      pyOrStr_three el.tags "phone" "contact:phone" "telephone" "Not available",
      address_eq el.tags⟩

/-- Witness element for `fallback_fields`: no name-like, phone-like or
address-component tags, only `operator` and `addr:full`. -/
def witElement : RawElement :=
  { type := "node", lat := some 1, lon := some 2, center := none,
    tags := [("operator", "X"), ("addr:full", "Somewhere 5")] }

/-- Witness for `fallback_fields` at a concrete element. -/
theorem fallback_fields_witness :
    ({ name := "X", address := "Somewhere 5", contact := "Not available",
       lat := 1, lon := 2, distance_km := 0 } : AmenityResult).name =
        specFirstNE witElement.tags ["name", "operator"] "Unknown" ∧
      ({ name := "X", address := "Somewhere 5", contact := "Not available",
         lat := 1, lon := 2, distance_km := 0 } : AmenityResult).contact =
        specFirstNE witElement.tags ["phone", "contact:phone", "telephone"]
          "Not available" ∧
      ({ name := "X", address := "Somewhere 5", contact := "Not available",
         lat := 1, lon := 2, distance_km := 0 } : AmenityResult).address =
        specAddress witElement.tags :=
  fallback_fields (fun _ _ _ _ => 0) 0 0 witElement
    { name := "X", address := "Somewhere 5", contact := "Not available",
      lat := 1, lon := 2, distance_km := 0 } (by decide)

/-- The intermediate `a` is symmetric in the two points. -/
theorem hav_a_symm (lat1 lon1 lat2 lon2 : ℝ) :
    hav_a lat1 lon1 lat2 lon2 = hav_a lat2 lon2 lat1 lon1 := by
  unfold hav_a
  have h₁ : radians (lat1 - lat2) = -radians (lat2 - lat1) := by
    unfold radians; ring
  have h₂ : radians (lon1 - lon2) = -radians (lon2 - lon1) := by
    unfold radians; ring
  rw [h₁, h₂, neg_div, neg_div, Real.sin_neg, Real.sin_neg]
  ring

/-- C7: the distance calculator is symmetric — exactly so in the
real-number model, hence within any floating tolerance. -/
theorem haversine_km_symm (lat1 lon1 lat2 lon2 : ℝ) :
    haversine_km lat1 lon1 lat2 lon2 = haversine_km lat2 lon2 lat1 lon1 := by
  unfold haversine_km
  rw [hav_a_symm]

/-- `atan2` at `(0, 1)`, the value reached when `a = 0`. -/
theorem atan2_zero_one : atan2 0 1 = 0 := by
  unfold atan2
  rw [if_pos one_pos]
  simp [Real.arctan_zero]

/-- The intermediate `a` vanishes on identical points. -/
theorem hav_a_self (lat lon : ℝ) : hav_a lat lon lat lon = 0 := by
  unfold hav_a radians
  simp

/-- Whenever the intermediate `a` vanishes, the distance is zero. -/
theorem haversine_of_a_zero (lat1 lon1 lat2 lon2 : ℝ)
    (h : hav_a lat1 lon1 lat2 lon2 = 0) :
    haversine_km lat1 lon1 lat2 lon2 = 0 := by
  unfold haversine_km
  rw [h]
  norm_num [Real.sqrt_zero, Real.sqrt_one, atan2_zero_one]

/-- The intermediate `a` also vanishes at two distinct points on the
north pole. -/
theorem hav_a_pole : hav_a 90 0 90 1 = 0 := by
  unfold hav_a
  have e1 : radians (90 - 90) = 0 := by unfold radians; norm_num
  have e2 : radians 90 = Real.pi / 2 := by unfold radians; ring
  rw [e1, e2, Real.cos_pi_div_two]
  simp

/-- C8 counterexample: the two coordinate pairs `(90, 0)` and `(90, 1)`
are distinct and within the valid ranges, yet their distance is
exactly zero (both denote the north pole), refuting "nonzero for every
pair of distinct valid points". -/
theorem c8_zero_distinct_cex :
    haversine_km 90 0 90 1 = 0 ∧
      ((90 : ℝ), (0 : ℝ)) ≠ ((90 : ℝ), (1 : ℝ)) ∧
      (-90 : ℝ) ≤ 90 ∧ (90 : ℝ) ≤ 90 ∧
      (-180 : ℝ) ≤ 0 ∧ (0 : ℝ) ≤ 180 ∧ (-180 : ℝ) ≤ 1 ∧ (1 : ℝ) ≤ 180 := by
  refine ⟨haversine_of_a_zero 90 0 90 1 hav_a_pole, ?_, by norm_num, le_refl _,
    by norm_num, by norm_num, by norm_num, by norm_num⟩
  intro h
  have := congrArg Prod.snd h
  norm_num at this

/-- C8 (amended): the distance of every point to itself is zero; the
converse fails, since distinct coordinate pairs can denote the same
physical location (see the counterexample at the pole). -/
theorem haversine_km_self_eq_zero (lat lon : ℝ) :
    haversine_km lat lon lat lon = 0 :=
  haversine_of_a_zero lat lon lat lon (hav_a_self lat lon)

/-- Degrees in `[-90, 90]` land in `[-π/2, π/2]`. -/
theorem radians_mem (lat : ℝ) (h₁ : -90 ≤ lat) (h₂ : lat ≤ 90) :
    -(Real.pi / 2) ≤ radians lat ∧ radians lat ≤ Real.pi / 2 := by
  unfold radians
  have hπ := Real.pi_pos
  constructor <;> nlinarith

/-- C4: totality of the distance calculator on its stated domain — the
intermediate `a` stays in `[0, 1]`, so both `sqrt` arguments are
non-negative, and the two `atan2` arguments never vanish
simultaneously (and `atan2` itself is total); hence `haversine_km`
returns a value for every valid pair, including identical and
antipodal points. -/
theorem haversine_args_safe (lat1 lon1 lat2 lon2 : ℝ)
    (h1 : -90 ≤ lat1) (h2 : lat1 ≤ 90) (h3 : -90 ≤ lat2) (h4 : lat2 ≤ 90)
    (h5 : -180 ≤ lon1) (h6 : lon1 ≤ 180) (h7 : -180 ≤ lon2) (h8 : lon2 ≤ 180) :
    0 ≤ hav_a lat1 lon1 lat2 lon2 ∧ hav_a lat1 lon1 lat2 lon2 ≤ 1 ∧
      1 - hav_a lat1 lon1 lat2 lon2 ≥ 0 ∧
      ¬(Real.sqrt (hav_a lat1 lon1 lat2 lon2) = 0 ∧
        Real.sqrt (1 - hav_a lat1 lon1 lat2 lon2) = 0) := by
  have hm1 := radians_mem lat1 h1 h2
  have hm2 := radians_mem lat2 h3 h4
  have hc1 : 0 ≤ Real.cos (radians lat1) :=
    Real.cos_nonneg_of_mem_Icc ⟨hm1.1, hm1.2⟩
  have hc2 : 0 ≤ Real.cos (radians lat2) :=
    Real.cos_nonneg_of_mem_Icc ⟨hm2.1, hm2.2⟩
  have hlow : 0 ≤ hav_a lat1 lon1 lat2 lon2 := by
    unfold hav_a
    have hs1 := sq_nonneg (Real.sin (radians (lat2 - lat1) / 2))
    have hs2 := sq_nonneg (Real.sin (radians (lon2 - lon1) / 2))
    nlinarith [mul_nonneg (mul_nonneg hc1 hc2) hs2]
  have hhigh : hav_a lat1 lon1 lat2 lon2 ≤ 1 := by
    unfold hav_a
    have hrad : radians (lat2 - lat1) = radians lat2 - radians lat1 := by
      unfold radians; ring
    rw [hrad]
    have hs1 : Real.sin ((radians lat2 - radians lat1) / 2) ^ 2 =
        1 / 2 - Real.cos (radians lat2 - radians lat1) / 2 := by
      have hc := Real.cos_sq ((radians lat2 - radians lat1) / 2)
      have hs := Real.sin_sq ((radians lat2 - radians lat1) / 2)
      have h2x : 2 * ((radians lat2 - radians lat1) / 2) =
          radians lat2 - radians lat1 := by ring
      rw [h2x] at hc
      linarith
    rw [hs1]
    have hcs := Real.cos_sub (radians lat2) (radians lat1)
    have hca := Real.cos_add (radians lat2) (radians lat1)
    have hcle := Real.cos_le_one (radians lat2 + radians lat1)
    have hs2le := Real.sin_sq_le_one (radians (lon2 - lon1) / 2)
    have hs2ge := sq_nonneg (Real.sin (radians (lon2 - lon1) / 2))
    have hprod : 0 ≤ (Real.cos (radians lat1) * Real.cos (radians lat2)) *
        (1 - Real.sin (radians (lon2 - lon1) / 2) ^ 2) :=
      mul_nonneg (mul_nonneg hc1 hc2) (by linarith)
    nlinarith [hcs, hca, hcle, hprod]
  refine ⟨hlow, hhigh, by linarith, ?_⟩
  rintro ⟨hA, hB⟩
  have ha0 : hav_a lat1 lon1 lat2 lon2 = 0 :=
    le_antisymm (Real.sqrt_eq_zero'.mp hA) hlow
  rw [ha0] at hB
  norm_num [Real.sqrt_one] at hB

/-- Witness for `haversine_args_safe` at the origin pair. -/
theorem haversine_args_safe_witness :
    0 ≤ hav_a 0 0 0 0 ∧ hav_a 0 0 0 0 ≤ 1 ∧ 1 - hav_a 0 0 0 0 ≥ 0 ∧
      ¬(Real.sqrt (hav_a 0 0 0 0) = 0 ∧ Real.sqrt (1 - hav_a 0 0 0 0) = 0) :=
  haversine_args_safe 0 0 0 0 (by norm_num) (by norm_num) (by norm_num)
    (by norm_num) (by norm_num) (by norm_num) (by norm_num) (by norm_num)
